import Mathlib

/-!
Smart Resume Ranker, `static/js/script.js`

A shallow embedding of the page script: the particle animator, the file
stager, the weight-label sync and the submission progress simulator.

Numbers are exact rationals (`ℚ`); file sizes are natural numbers of bytes.
Every `document.getElementById` result is an `Option`; dereferencing `null`
is an explicit `TypeError` outcome.
-/

namespace SmartResumeRanker

/-! ## Particle effect (script.js lines 3-57) -/

/-- The canvas dimensions read by `Particle` (`canvas.width`, `canvas.height`). -/
structure Canvas where
  width : ℚ
  height : ℚ
  deriving DecidableEq, Repr

/-- The fields of `class Particle`; `alpha` is the opacity inside `color`. -/
structure Particle where
  x : ℚ
  y : ℚ
  size : ℚ
  speedX : ℚ
  speedY : ℚ
  alpha : ℚ
  deriving DecidableEq, Repr

/-- The `Particle` constructor (lines 16-23); `r0 .. r5` are the six
`Math.random()` results in evaluation order. -/
def Particle.constructor (canvas : Canvas) (r0 r1 r2 r3 r4 r5 : ℚ) : Particle :=
  { x := r0 * canvas.width
    y := r1 * canvas.height
    size := r2 * 2 + 1 / 2
    speedX := r3 * 1 - 1 / 2
    speedY := r4 * 1 - 1 / 2
    alpha := r5 * (1 / 2) }

/-- The method `Particle.update` (lines 24-31): the four `if` statements run in
sequence, each on the value left by the previous one. -/
def Particle.update (canvas : Canvas) (p : Particle) : Particle :=
  let x := p.x + p.speedX
  let y := p.y + p.speedY
  let x := if x > canvas.width then 0 else x
  let x := if x < 0 then canvas.width else x
  let y := if y > canvas.height then 0 else y
  let y := if y < 0 then canvas.height else y
  { p with x := x, y := y }

/-- The position part of one `animateParticles` frame (lines 48-51): every
particle is updated once. -/
def animateParticles (canvas : Canvas) (particles : List Particle) : List Particle :=
  particles.map (Particle.update canvas)

/-! ## Progress timer (script.js lines 136-142) -/

/-- The closure state of one `setInterval` call: the variable `width`, whether
`clearInterval(interval)` has been called, and the values of `width` at each
execution of the write statement of line 141 so far (in percent, oldest first). -/
structure Timer where
  width : ℚ
  cleared : Bool
  written : List ℚ
  deriving DecidableEq, Repr

/-- The state right after `let width = 0; const interval = setInterval(...)`. -/
def Timer.start : Timer :=
  { width := 0, cleared := false, written := [] }

/-- The body of the interval callback (lines 138-141) with `Math.random() * 5 = r`.
`clearInterval` does not leave the callback: the increment, the clamp and the
write run in the same call. -/
def Timer.callback (r : ℚ) (t : Timer) : Timer :=
  let cleared := if t.width ≥ 95 then true else t.cleared
  let width := t.width + r
  let width := if width > 95 then 95 else width
  { width := width, cleared := cleared, written := t.written ++ [width] }

/-- One 300ms period: the callback runs unless the interval was cleared. -/
def Timer.tick (r : ℚ) (t : Timer) : Timer :=
  if t.cleared then t else t.callback r

/-- The timer after the periods whose random increments are `rs`, in order. -/
def Timer.run (rs : List ℚ) (t : Timer) : Timer :=
  rs.foldl (fun t r => t.tick r) t

/-- Every increment is a value of `Math.random() * 5`, that is in `[0, 5)`. -/
def validIncrements (rs : List ℚ) : Prop :=
  ∀ r ∈ rs, 0 ≤ r ∧ r < 5

/-! ## DOM model -/

/-- A `File` of a `FileList`: its name and its size in bytes. -/
structure File where
  name : String
  size : Nat
  deriving DecidableEq, Repr

/-- The element `dropZone`: its `classList`. -/
structure DropZone where
  classList : List String
  deriving DecidableEq, Repr

/-- The element `resumeInput`: its `files` and how often `click()` was called on it. -/
structure FileInput where
  files : List File
  clicks : Nat
  deriving DecidableEq, Repr

/-- A child of `fileList`: the `className` and `innerHTML` given to the `div`. -/
structure FileItem where
  className : String
  innerHTML : String
  deriving DecidableEq, Repr

/-- The element `fileList`: its children in document order. -/
structure FileListEl where
  children : List FileItem
  deriving DecidableEq, Repr

/-- A range control `weight_*`: its current `value`. -/
structure Slider where
  value : String
  deriving DecidableEq, Repr

/-- A label `val_*`: its `textContent`. -/
structure Label where
  textContent : String
  deriving DecidableEq, Repr

/-- The element `analyzeBtn`: `disabled`, `style.opacity` and `innerHTML`. -/
structure Button where
  disabled : Bool
  opacity : String
  innerHTML : String
  deriving DecidableEq, Repr

/-- The element `progressBarContainer`: its `style.display`. -/
structure Container where
  display : String
  deriving DecidableEq, Repr

/-- The element `progressBar`: the number of percent last assigned to
`style.width` (`none` while the script has not assigned it). -/
structure Bar where
  width : Option ℚ
  deriving DecidableEq, Repr

/-- Which listeners the script has attached with `addEventListener`. -/
structure Listeners where
  resize : Bool
  click : Bool
  dragover : Bool
  dragleave : Bool
  drop : Bool
  change : Bool
  input : List String
  submit : Bool
  deriving DecidableEq, Repr

/-- No listener attached: the page before `DOMContentLoaded`. -/
def Listeners.empty : Listeners :=
  { resize := false, click := false, dragover := false, dragleave := false,
    drop := false, change := false, input := [], submit := false }

/-- The page: the fifteen `getElementById` results of section 6 of the
specification, the window size, and the runtime state the script owns. -/
structure Page where
  particlesJs : Option Canvas
  dropZone : Option DropZone
  resumeInput : Option FileInput
  fileList : Option FileListEl
  weight_skills : Option Slider
  weight_exp : Option Slider
  weight_edu : Option Slider
  val_skills : Option Label
  val_exp : Option Label
  val_edu : Option Label
  uploadForm : Option Unit
  progressBarContainer : Option Container
  progressBar : Option Bar
  progressText : Option Unit
  analyzeBtn : Option Button
  innerWidth : ℚ
  innerHeight : ℚ
  particles : List Particle
  frameRequested : Bool
  listeners : Listeners
  alerts : List String
  timers : List Timer
  deriving DecidableEq, Repr

/-- A thrown JavaScript exception. -/
inductive JsError where
  | typeError (what : String)
  deriving DecidableEq, Repr

/-- What running a handler leaves behind: the page, whether
`e.preventDefault()` was called, and the exception that ended the handler, if any. -/
structure Outcome where
  page : Page
  defaultPrevented : Bool
  error : Option JsError
  deriving DecidableEq, Repr

/-- An outcome without exception and without `preventDefault`. -/
def Outcome.ok (p : Page) : Outcome :=
  { page := p, defaultPrevented := false, error := none }

/-! ## Built-ins the script calls -/

/-- The method `DOMTokenList.add`: the token is appended unless already present. -/
def classListAdd (token : String) (classes : List String) : List String :=
  if token ∈ classes then classes else classes ++ [token]

/-- The method `DOMTokenList.remove`: the token is taken out. -/
def classListRemove (token : String) (classes : List String) : List String :=
  classes.filter (fun c => c ≠ token)

/-- The method `String.prototype.replace` with a string pattern, on characters: only the
first occurrence is replaced. -/
def replaceFirst (pat rep : List Char) : List Char → List Char
  | [] => if pat = [] then rep else []
  | c :: cs =>
    if pat.isPrefixOf (c :: cs) then rep ++ (c :: cs).drop pat.length
    else c :: replaceFirst pat rep cs

/-- The call `s.replace(pat, rep)` for strings `pat`, `rep`. -/
def jsReplace (s pat rep : String) : String :=
  String.mk (replaceFirst pat.data rep.data s.data)

/-- The integer `n` that `(size / 1024).toFixed(1)` picks: the one for which
`n / 10` is closest to `size / 1024`, the larger one on a tie (ECMAScript
`Number.prototype.toFixed`, step "let n be an integer for which n / 10^f - x is
as close to zero as possible; if there are two such n, pick the larger").
`size / 1024` is exact in binary floating point for every file size below 2^53. -/
def kbTenths (size : Nat) : Nat :=
  (size * 10 + 512) / 1024

/-- The string `toFixed(1)` builds from that `n`: its decimal digits with a
point before the last one, and a leading `0` when `n` has a single digit. -/
def toFixed1 (n : Nat) : String :=
  toString (n / 10) ++ "." ++ toString (n % 10)

/-! ## File stager (script.js lines 60-102) -/

/-- The call `dropZone.classList.add(token)`. -/
def DropZone.addClass (token : String) (z : DropZone) : DropZone :=
  { z with classList := classListAdd token z.classList }

/-- The call `dropZone.classList.remove(token)`. -/
def DropZone.removeClass (token : String) (z : DropZone) : DropZone :=
  { z with classList := classListRemove token z.classList }

/-- The template literal of lines 96-99 with its two substitutions. -/
def fileItemHtml (name sizeKb : String) : String :=
  "\n                <span><i class=\"fas fa-file-alt\"></i> " ++ name ++
  "</span>\n                <span style=\"font-size: 0.8rem; color: #94a3b8;\">" ++ sizeKb ++
  " KB</span>\n            "

/-- The `div` that `updateFileList` builds for one file (lines 94-99). -/
def fileItem (file : File) : FileItem :=
  { className := "file-item"
    innerHTML := fileItemHtml file.name (toFixed1 (kbTenths file.size)) }

/-- The text a browser shows for the markup assigned to `innerHTML` (the HTML
fragment parser, restricted to text, tags without `>` inside an attribute
value, and the character references `&amp;`, `&lt;`, `&gt;`): a `<` followed by
a letter, `/`, `!` or `?` opens a tag that runs to the next `>` and is not
text, and a reference stands for its character. The flag says whether the
reader is inside a tag; the number counts characters of a reference still to
skip. -/
def htmlText : Bool → Nat → List Char → List Char
  | _, _, [] => []
  | inTag, skip + 1, _ :: cs => htmlText inTag skip cs
  | true, 0, c :: cs => if c = '>' then htmlText false 0 cs else htmlText true 0 cs
  | false, 0, c :: cs =>
    if c = '<' then
      match cs with
      | d :: _ =>
        if d.isAlpha || d = '/' || d = '!' || d = '?' then htmlText true 0 cs
        else c :: htmlText false 0 cs
      | [] => c :: htmlText false 0 cs
    else if c = '&' then
      if "amp;".data.isPrefixOf cs then '&' :: htmlText false 4 cs
      else if "lt;".data.isPrefixOf cs then '<' :: htmlText false 3 cs
      else if "gt;".data.isPrefixOf cs then '>' :: htmlText false 3 cs
      else c :: htmlText false 0 cs
    else c :: htmlText false 0 cs

/-- The text content of a row: what its `innerHTML` shows once parsed. -/
def FileItem.text (item : FileItem) : String :=
  String.mk (htmlText false 0 item.innerHTML.data)

/-- The function `updateFileList` (lines 91-102): `fileList.innerHTML = ''`
throws when `fileList` is `null`; otherwise the children are replaced by one
`div` per file. -/
def updateFileList (files : List File) (p : Page) : Except JsError Page :=
  match p.fileList with
  | none => .error (.typeError "fileList is null")
  | some _ =>
    let cleared : FileListEl := { children := [] }
    let filled : FileListEl :=
      files.foldl (fun l file => { children := l.children ++ [fileItem file] }) cleared
    .ok { p with fileList := some filled }

/-- The `click` listener of `dropZone` (line 65). -/
def onClick (p : Page) : Outcome :=
  match p.resumeInput with
  | none => { page := p, defaultPrevented := false, error := some (.typeError "fileInput is null") }
  | some fi => Outcome.ok { p with resumeInput := some { fi with clicks := fi.clicks + 1 } }

/-- The `dragover` listener of `dropZone` (lines 67-70). -/
def onDragover (p : Page) : Outcome :=
  { page := { p with dropZone := p.dropZone.map (DropZone.addClass "dragover") }
    defaultPrevented := true
    error := none }

/-- The `dragleave` listener of `dropZone` (lines 72-74). -/
def onDragleave (p : Page) : Outcome :=
  Outcome.ok { p with dropZone := p.dropZone.map (DropZone.removeClass "dragover") }

/-- The `drop` listener of `dropZone` (lines 76-84); `dropped` is
`e.dataTransfer.files`. -/
def onDrop (dropped : List File) (p : Page) : Outcome :=
  let p1 : Page := { p with dropZone := p.dropZone.map (DropZone.removeClass "dragover") }
  if dropped.length ≠ 0 then
    match p1.resumeInput with
    | none => { page := p1, defaultPrevented := true, error := some (.typeError "fileInput is null") }
    | some fi =>
      let p2 : Page := { p1 with resumeInput := some { fi with files := dropped } }
      match updateFileList dropped p2 with
      | .error e => { page := p2, defaultPrevented := true, error := some e }
      | .ok p3 => { page := p3, defaultPrevented := true, error := none }
  else { page := p1, defaultPrevented := true, error := none }

/-- The `change` listener of `fileInput` (lines 86-88). -/
def onChange (p : Page) : Outcome :=
  match p.resumeInput with
  | none => { page := p, defaultPrevented := false, error := some (.typeError "fileInput is null") }
  | some fi =>
    match updateFileList fi.files p with
    | .error e => { page := p, defaultPrevented := false, error := some e }
    | .ok p1 => Outcome.ok p1

/-- The drag-and-drop setup (lines 60-89): the four `dropZone` listeners are
attached first, then `fileInput.addEventListener` is called without a check of
`fileInput`. -/
def dragAndDropSetup (p : Page) : Outcome :=
  match p.dropZone with
  | none => Outcome.ok p
  | some _ =>
    let p1 : Page := { p with listeners :=
      { p.listeners with click := true, dragover := true, dragleave := true, drop := true } }
    match p1.resumeInput with
    | none => { page := p1, defaultPrevented := false, error := some (.typeError "fileInput is null") }
    | some _ => Outcome.ok { p1 with listeners := { p1.listeners with change := true } }

/-! ## Weight-label sync (script.js lines 105-114) -/

/-- The array `sliders` of line 105. -/
def sliders : List String :=
  ["weight_skills", "weight_exp", "weight_edu"]

/-- The label id computed on line 108: `id.replace('weight_', 'val_')`. -/
def displayId (id : String) : String :=
  jsReplace id "weight_" "val_"

/-- The result of `document.getElementById(id)` for a slider id. -/
def Page.slider (p : Page) (id : String) : Option Slider :=
  if id = "weight_skills" then p.weight_skills
  else if id = "weight_exp" then p.weight_exp
  else if id = "weight_edu" then p.weight_edu
  else none

/-- The result of `document.getElementById(id)` for a label id. -/
def Page.label (p : Page) (id : String) : Option Label :=
  if id = "val_skills" then p.val_skills
  else if id = "val_exp" then p.val_exp
  else if id = "val_edu" then p.val_edu
  else none

/-- The page after the slider with the given id got the given `value`. -/
def Page.setSliderValue (p : Page) (id value : String) : Page :=
  if id = "weight_skills" then { p with weight_skills := p.weight_skills.map (fun _ => ⟨value⟩) }
  else if id = "weight_exp" then { p with weight_exp := p.weight_exp.map (fun _ => ⟨value⟩) }
  else if id = "weight_edu" then { p with weight_edu := p.weight_edu.map (fun _ => ⟨value⟩) }
  else p

/-- The page after the label with the given id got the given `textContent`. -/
def Page.setLabelText (p : Page) (id text : String) : Page :=
  if id = "val_skills" then { p with val_skills := p.val_skills.map (fun _ => ⟨text⟩) }
  else if id = "val_exp" then { p with val_exp := p.val_exp.map (fun _ => ⟨text⟩) }
  else if id = "val_edu" then { p with val_edu := p.val_edu.map (fun _ => ⟨text⟩) }
  else p

/-- The body of the `forEach` callback (lines 107-113) for one id: the `input`
listener is attached only when slider and label both exist. -/
def sliderSetupOne (p : Page) (id : String) : Page :=
  match p.slider id, p.label (displayId id) with
  | some _, some _ =>
    { p with listeners := { p.listeners with input := p.listeners.input ++ [id] } }
  | _, _ => p

/-- The slider setup (lines 105-114): `sliders.forEach(...)`. -/
def sliderSetup (p : Page) : Page :=
  sliders.foldl sliderSetupOne p

/-- The `input` listener attached for slider `id` (line 111), with
`e.target.value = value`: the label captured in `display` gets the value. -/
def onInput (id value : String) (p : Page) : Outcome :=
  Outcome.ok (p.setLabelText (displayId id) value)

/-! ## Form submission and progress (script.js lines 117-144) -/

/-- The `submit` listener of `uploadForm` (lines 124-143). -/
def onSubmit (p : Page) : Outcome :=
  match p.resumeInput with
  | none => { page := p, defaultPrevented := false, error := some (.typeError "fileInput is null") }
  | some fi =>
    if fi.files.length = 0 then
      { page := { p with alerts := p.alerts ++ ["Please upload at least one resume."] }
        defaultPrevented := true
        error := none }
    else
      match p.analyzeBtn with
      | none => { page := p, defaultPrevented := false, error := some (.typeError "analyzeBtn is null") }
      | some _ =>
        let btn : Button :=
          { disabled := true
            opacity := "0.7"
            innerHTML := "<i class=\"fas fa-spinner fa-spin\"></i> Processing..." }
        let p1 : Page := { p with analyzeBtn := some btn }
        match p1.progressBarContainer with
        | none =>
          { page := p1, defaultPrevented := false,
            error := some (.typeError "progressBarContainer is null") }
        | some _ =>
          let p2 : Page := { p1 with progressBarContainer := some { display := "block" } }
          Outcome.ok { p2 with timers := p2.timers ++ [Timer.start] }

/-- One period of the `i`-th interval on the page: the callback of lines
138-141 runs unless that interval was cleared; its last statement throws when
`progressBar` is `null`. -/
def onTick (i : Nat) (r : ℚ) (p : Page) : Outcome :=
  match p.timers.get? i with
  | none => Outcome.ok p
  | some t =>
    if t.cleared then Outcome.ok p
    else
      let t1 := t.callback r
      let p1 : Page := { p with timers := p.timers.set i t1 }
      match p1.progressBar with
      | none => { page := p1, defaultPrevented := false, error := some (.typeError "progressBar is null") }
      | some _ => Outcome.ok { p1 with progressBar := some { width := some t1.width } }

/-- The form setup (lines 117-144): the listener is attached when `form` exists. -/
def formSetup (p : Page) : Page :=
  match p.uploadForm with
  | none => p
  | some _ => { p with listeners := { p.listeners with submit := true } }

/-! ## Page load (script.js lines 1-145) -/

/-- The function `initParticles` (lines 40-44): 100 particles, the `i`-th built
from the random numbers `rand (6 * i) .. rand (6 * i + 5)`. -/
def initParticles (canvas : Canvas) (rand : Nat → ℚ) : List Particle :=
  (List.range 100).map (fun i =>
    Particle.constructor canvas (rand (6 * i)) (rand (6 * i + 1)) (rand (6 * i + 2))
      (rand (6 * i + 3)) (rand (6 * i + 4)) (rand (6 * i + 5)))

/-- The particle setup (lines 3-57): nothing happens without a canvas;
otherwise the canvas takes the window size, the particles are created and the
first frame runs. -/
def particleSetup (rand : Nat → ℚ) (p : Page) : Page :=
  match p.particlesJs with
  | none => p
  | some _ =>
    let canvas : Canvas := { width := p.innerWidth, height := p.innerHeight }
    { p with particlesJs := some canvas
             listeners := { p.listeners with resize := true }
             particles := animateParticles canvas (initParticles canvas rand)
             frameRequested := true }

/-- The `DOMContentLoaded` listener (lines 1-145): the four sections in source
order; an exception in one section ends the listener, so the later sections
do not run. -/
def domContentLoaded (rand : Nat → ℚ) (p : Page) : Outcome :=
  let p1 := particleSetup rand p
  let o := dragAndDropSetup p1
  match o.error with
  | some _ => o
  | none => Outcome.ok (formSetup (sliderSetup o.page))

/-- The events the page can receive after load. -/
inductive Event where
  | resize (width height : ℚ)
  | frame
  | click
  | dragover
  | dragleave
  | drop (files : List File)
  | change (files : List File)
  | input (id value : String)
  | submit
  | tick (i : Nat) (r : ℚ)

/-- The effect of one event: what the browser does itself, then the listener
of the script when one is attached to an element that exists. -/
def dispatch (p : Page) : Event → Outcome
  | .resize w h =>
    let p1 : Page := { p with innerWidth := w, innerHeight := h }
    if p1.listeners.resize then
      Outcome.ok { p1 with particlesJs := p1.particlesJs.map (fun _ => ⟨w, h⟩) }
    else Outcome.ok p1
  | .frame =>
    match p.frameRequested, p.particlesJs with
    | true, some canvas => Outcome.ok { p with particles := animateParticles canvas p.particles }
    | _, _ => Outcome.ok p
  | .click => if p.dropZone.isSome && p.listeners.click then onClick p else Outcome.ok p
  | .dragover => if p.dropZone.isSome && p.listeners.dragover then onDragover p else Outcome.ok p
  | .dragleave => if p.dropZone.isSome && p.listeners.dragleave then onDragleave p else Outcome.ok p
  | .drop files => if p.dropZone.isSome && p.listeners.drop then onDrop files p else Outcome.ok p
  | .change files =>
    match p.resumeInput with
    | none => Outcome.ok p
    | some fi =>
      let p1 : Page := { p with resumeInput := some { fi with files := files } }
      if p1.listeners.change then onChange p1 else Outcome.ok p1
  | .input id value =>
    match p.slider id with
    | none => Outcome.ok p
    | some _ =>
      let p1 := p.setSliderValue id value
      if id ∈ p1.listeners.input then onInput id value p1 else Outcome.ok p1
  | .submit => if p.uploadForm.isSome && p.listeners.submit then onSubmit p else Outcome.ok p
  | .tick i r => onTick i r p

/-! ## Example pages -/

/-- A page with none of the fifteen elements, before `DOMContentLoaded`. -/
def emptyPage : Page :=
  { particlesJs := none, dropZone := none, resumeInput := none, fileList := none
    weight_skills := none, weight_exp := none, weight_edu := none
    val_skills := none, val_exp := none, val_edu := none
    uploadForm := none, progressBarContainer := none, progressBar := none
    progressText := none, analyzeBtn := none
    innerWidth := 800, innerHeight := 600
    particles := [], frameRequested := false
    listeners := Listeners.empty, alerts := [], timers := [] }

/-- A page with `dropZone`, one slider with its label and `uploadForm`, but
without `resumeInput`. -/
def pageWithoutFileInput : Page :=
  { emptyPage with
    dropZone := some { classList := [] }
    weight_skills := some { value := "50" }
    val_skills := some { textContent := "50" }
    uploadForm := some () }

/-- A page with `dropZone` and `resumeInput` but without `fileList`. -/
def pageWithoutFileList : Page :=
  { emptyPage with
    dropZone := some { classList := [] }
    resumeInput := some { files := [], clicks := 0 } }

/-- A page with `uploadForm` and one staged file but without `analyzeBtn`. -/
def pageWithoutAnalyzeBtn : Page :=
  { emptyPage with
    resumeInput := some { files := [{ name := "cv.pdf", size := 2048 }], clicks := 0 }
    uploadForm := some () }

/-- A page with every element, one file staged and two rows listed. -/
def fullPage : Page :=
  { emptyPage with
    particlesJs := some { width := 300, height := 150 }
    dropZone := some { classList := ["drop-zone", "dragover"] }
    resumeInput := some { files := [{ name := "old.pdf", size := 100 }], clicks := 0 }
    fileList := some { children := [fileItem { name := "old.pdf", size := 100 }] }
    weight_skills := some { value := "50" }
    weight_exp := some { value := "30" }
    weight_edu := some { value := "20" }
    val_skills := some { textContent := "50" }
    val_exp := some { textContent := "30" }
    val_edu := some { textContent := "20" }
    uploadForm := some ()
    progressBarContainer := some { display := "none" }
    progressBar := some { width := none }
    progressText := some ()
    analyzeBtn := some { disabled := false, opacity := "1", innerHTML := "Analyze" } }

/-- The invariant of the progress timer: the width is in `[0, 95]`, and the
logged writes are non-decreasing, non-negative and at most the current width. -/
def Timer.Inv (t : Timer) : Prop :=
  0 ≤ t.width ∧ t.width ≤ 95 ∧ t.written.Pairwise (· ≤ ·) ∧
    ∀ w ∈ t.written, 0 ≤ w ∧ w ≤ t.width

/-! ## Lemmas -/

section Lemmas

theorem update_x_inside (c : Canvas) (p : Particle) (hw : 0 ≤ c.width) :
    0 ≤ (Particle.update c p).x ∧ (Particle.update c p).x ≤ c.width := by
  simp only [Particle.update]
  split_ifs <;> constructor <;> linarith

theorem update_y_inside (c : Canvas) (p : Particle) (hh : 0 ≤ c.height) :
    0 ≤ (Particle.update c p).y ∧ (Particle.update c p).y ≤ c.height := by
  simp only [Particle.update]
  split_ifs <;> constructor <;> linarith

theorem run_snoc (rs : List ℚ) (r : ℚ) (t : Timer) :
    Timer.run (rs ++ [r]) t = (Timer.run rs t).tick r := by
  simp [Timer.run, List.foldl_append]

theorem tick_width_bounds (t : Timer) (r : ℚ) (h95 : t.width ≤ 95)
    (hr : 0 ≤ r) :
    t.width ≤ (t.tick r).width ∧ (t.tick r).width ≤ 95 ∧ (t.tick r).width ≤ t.width + r := by
  unfold Timer.tick Timer.callback
  by_cases hc : t.cleared = true
  · simp [hc, h95, hr]
  · simp only [hc]
    simp only [Bool.false_eq_true, if_false]
    split_ifs <;> refine ⟨?_, ?_, ?_⟩ <;> linarith

theorem run_width_bounds (rs : List ℚ) (hrs : validIncrements rs) :
    0 ≤ (Timer.run rs Timer.start).width ∧ (Timer.run rs Timer.start).width ≤ 95 := by
  induction rs using List.reverseRecOn with
  | nil => simp [Timer.run, Timer.start]
  | append_singleton rs r ih =>
    have hv : validIncrements rs := fun x hx => hrs x (by simp [hx])
    have hr := hrs r (by simp)
    obtain ⟨h0, h95⟩ := ih hv
    rw [run_snoc]
    have := tick_width_bounds _ r h95 hr.1
    exact ⟨by linarith, this.2.1⟩

theorem run_width_lt (rs : List ℚ) (hrs : validIncrements rs) :
    (Timer.run rs Timer.start).width ≤ 5 * rs.length ∧
    (rs ≠ [] → (Timer.run rs Timer.start).width < 5 * rs.length) := by
  induction rs using List.reverseRecOn with
  | nil => simp [Timer.run, Timer.start]
  | append_singleton rs r ih =>
    have hv : validIncrements rs := fun x hx => hrs x (by simp [hx])
    have hr := hrs r (by simp)
    obtain ⟨h0, h95⟩ := run_width_bounds rs hv
    have hle := (ih hv).1
    rw [run_snoc]
    have := (tick_width_bounds _ r h95 hr.1).2.2
    have hlen : ((rs ++ [r]).length : ℚ) = rs.length + 1 := by simp
    rw [hlen]
    have hlt : ((Timer.run rs Timer.start).tick r).width < 5 * ((rs.length : ℚ) + 1) := by
      linarith [hr.2]
    exact ⟨le_of_lt hlt, fun _ => hlt⟩

theorem tick_inv (t : Timer) (r : ℚ) (hr : 0 ≤ r) (h : t.Inv) : (t.tick r).Inv := by
  obtain ⟨h0, h95, hs, hb⟩ := h
  have hw := tick_width_bounds t r h95 hr
  by_cases hc : t.cleared = true
  · have : t.tick r = t := by simp [Timer.tick, hc]
    rw [this]; exact ⟨h0, h95, hs, hb⟩
  · have htick : t.tick r = t.callback r := by simp [Timer.tick, hc]
    have hwr : (t.callback r).written = t.written ++ [(t.callback r).width] := by
      simp [Timer.callback]
    rw [htick] at hw ⊢
    refine ⟨le_trans h0 hw.1, hw.2.1, ?_, ?_⟩
    · rw [hwr, List.pairwise_append]
      refine ⟨hs, by simp, ?_⟩
      intro a ha b hb'
      simp only [List.mem_singleton] at hb'
      rw [hb']
      exact le_trans (hb a ha).2 hw.1
    · intro w hmem
      rw [hwr] at hmem
      rcases List.mem_append.mp hmem with h | h
      · exact ⟨(hb w h).1, le_trans (hb w h).2 hw.1⟩
      · simp only [List.mem_singleton] at h
        rw [h]
        exact ⟨le_trans h0 hw.1, le_refl _⟩

theorem run_inv (rs : List ℚ) (hrs : validIncrements rs) : (Timer.run rs Timer.start).Inv := by
  induction rs using List.reverseRecOn with
  | nil => simp [Timer.run, Timer.start, Timer.Inv]
  | append_singleton rs r ih =>
    rw [run_snoc]
    exact tick_inv _ r (hrs r (by simp)).1 (ih (fun x hx => hrs x (by simp [hx])))

theorem run_not_cleared (rs : List ℚ) (hrs : validIncrements rs) (hlen : rs.length ≤ 20) :
    (Timer.run rs Timer.start).cleared = false := by
  induction rs using List.reverseRecOn with
  | nil => simp [Timer.run, Timer.start]
  | append_singleton rs r ih =>
    have hv : validIncrements rs := fun x hx => hrs x (by simp [hx])
    have hl : rs.length ≤ 19 := by
      simp only [List.length_append, List.length_singleton] at hlen
      omega
    have hc := ih hv (by omega)
    have hlt : (Timer.run rs Timer.start).width < 95 := by
      rcases Nat.eq_zero_or_pos rs.length with h0 | hpos
      · have : rs = [] := List.length_eq_zero.mp h0
        subst this
        simp [Timer.run, Timer.start]
      · have hne : rs ≠ [] := by
          intro h; subst h; simp at hpos
        have h1 := (run_width_lt rs hv).2 hne
        have h2 : (rs.length : ℚ) ≤ 19 := by exact_mod_cast hl
        linarith
    rw [run_snoc]
    simp [Timer.tick, Timer.callback, hc, not_le.mpr hlt]

theorem foldl_fileItem (files : List File) (init : FileListEl) :
    files.foldl (fun l file => ({ children := l.children ++ [fileItem file] } : FileListEl)) init
      = { children := init.children ++ files.map fileItem } := by
  induction files generalizing init with
  | nil => simp
  | cons f fs ih => simp [List.foldl_cons, ih]

theorem updateFileList_ok (files : List File) (p : Page) (fl : FileListEl)
    (h : p.fileList = some fl) :
    updateFileList files p = .ok { p with fileList := some { children := files.map fileItem } } := by
  simp [updateFileList, h, foldl_fileItem]

theorem kbTenths_nearest (size : Nat) :
    ((kbTenths size : ℚ) / 10 - 1 / 20 ≤ (size : ℚ) / 1024) ∧
    ((size : ℚ) / 1024 < (kbTenths size : ℚ) / 10 + 1 / 20) := by
  have h1 : kbTenths size * 1024 ≤ size * 10 + 512 := Nat.div_mul_le_self _ _
  have h2 : size * 10 + 512 < (kbTenths size + 1) * 1024 := by
    have := Nat.lt_succ_self ((size * 10 + 512) / 1024)
    exact (Nat.div_lt_iff_lt_mul (by norm_num)).mp this
  have h1q : (kbTenths size : ℚ) * 1024 ≤ (size : ℚ) * 10 + 512 := by exact_mod_cast h1
  have h2q : (size : ℚ) * 10 + 512 < ((kbTenths size : ℚ) + 1) * 1024 := by exact_mod_cast h2
  constructor
  · rw [le_div_iff₀ (by norm_num)]; linarith
  · rw [div_lt_iff₀ (by norm_num)]; linarith

theorem displayId_skills : displayId "weight_skills" = "val_skills" := by decide

theorem displayId_exp : displayId "weight_exp" = "val_exp" := by decide

theorem displayId_edu : displayId "weight_edu" = "val_edu" := by decide

theorem sliderSetupOne_eq (p : Page) (id : String) :
    sliderSetupOne p id = { p with listeners := { p.listeners with
      input := p.listeners.input ++
        (if (p.slider id).isSome ∧ (p.label (displayId id)).isSome then [id] else []) } } := by
  unfold sliderSetupOne
  cases h1 : p.slider id <;> cases h2 : p.label (displayId id) <;> simp

theorem sliderSetup_eq (p : Page) :
    sliderSetup p = { p with listeners := { p.listeners with
      input := p.listeners.input ++
        ((if p.weight_skills.isSome ∧ p.val_skills.isSome then ["weight_skills"] else []) ++
         (if p.weight_exp.isSome ∧ p.val_exp.isSome then ["weight_exp"] else []) ++
         (if p.weight_edu.isSome ∧ p.val_edu.isSome then ["weight_edu"] else [])) } } := by
  simp [sliderSetup, sliders, sliderSetupOne_eq, Page.slider, Page.label, displayId_skills,
    displayId_exp, displayId_edu, List.append_assoc]

theorem onTick_writes_width (p : Page) (i : Nat) (r : ℚ) (t : Timer) (b : Bar)
    (ht : p.timers.get? i = some t) (hc : t.cleared = false) (hb : p.progressBar = some b) :
    (onTick i r p).error = none ∧
    (onTick i r p).page.timers = p.timers.set i (t.tick r) ∧
    (onTick i r p).page.progressBar = some { width := some (t.tick r).width } := by
  simp only [onTick, ht, hc]
  simp [hb, Timer.tick, hc, Outcome.ok]

theorem load_reaches_sliders (rand : Nat → ℚ) (p : Page)
    (h : p.dropZone = none ∨ p.resumeInput.isSome = true) :
    (domContentLoaded rand p).error = none ∧
    (domContentLoaded rand p).page.listeners.input =
      (sliderSetup (dragAndDropSetup (particleSetup rand p)).page).listeners.input := by
  have hd : (dragAndDropSetup (particleSetup rand p)).error = none := by
    have h1 : (particleSetup rand p).dropZone = p.dropZone := by
      unfold particleSetup; cases p.particlesJs <;> rfl
    have h2 : (particleSetup rand p).resumeInput = p.resumeInput := by
      unfold particleSetup; cases p.particlesJs <;> rfl
    unfold dragAndDropSetup
    rw [h1, h2]
    rcases h with h | h
    · simp [h, Outcome.ok]
    · cases hz : p.dropZone with
      | none => simp [Outcome.ok]
      | some z =>
        cases hf : p.resumeInput with
        | none => simp [hf] at h
        | some f => simp [Outcome.ok]
  unfold domContentLoaded
  simp only [hd]
  refine ⟨rfl, ?_⟩
  simp only [Outcome.ok, formSetup]
  cases (sliderSetup (dragAndDropSetup (particleSetup rand p)).page).uploadForm <;> rfl

theorem onDrop_sets_files_and_rows (p : Page) (fi : FileInput) (fl : FileListEl)
    (fs : List File) (hfi : p.resumeInput = some fi) (hfl : p.fileList = some fl)
    (hfs : 1 ≤ fs.length) :
    (onDrop fs p).error = none ∧
    (onDrop fs p).page.resumeInput = some { fi with files := fs } ∧
    (onDrop fs p).page.fileList = some { children := fs.map fileItem } ∧
    (fs.map fileItem).length = fs.length ∧
    ∀ (i : Nat) (f : File), fs[i]? = some f →
      (fs.map fileItem)[i]? = some
        { className := "file-item"
          innerHTML := fileItemHtml f.name (toFixed1 (kbTenths f.size)) } ∧
      (kbTenths f.size : ℚ) / 10 - 1 / 20 ≤ (f.size : ℚ) / 1024 ∧
      (f.size : ℚ) / 1024 < (kbTenths f.size : ℚ) / 10 + 1 / 20 := by
  have hne : fs.length ≠ 0 := by omega
  have hup := updateFileList_ok fs
    { p with dropZone := p.dropZone.map (DropZone.removeClass "dragover")
             resumeInput := some { fi with files := fs } } fl hfl
  refine ⟨?_, ?_, ?_, by simp, ?_⟩
  · simp only [onDrop, hne, ne_eq, not_false_eq_true, if_true, hfi, hup]
  · simp only [onDrop, hne, ne_eq, not_false_eq_true, if_true, hfi, hup]
  · simp only [onDrop, hne, ne_eq, not_false_eq_true, if_true, hfi, hup]
  · intro i f hf
    refine ⟨?_, kbTenths_nearest f.size⟩
    simp [List.getElem?_map, hf, fileItem]

theorem sliderSetup_then_input_mirrors (p : Page) (id V : String) (s : Slider) (l : Label)
    (hid : id ∈ sliders) (hs : p.slider id = some s) (hl : p.label (displayId id) = some l) :
    id ∈ (sliderSetup p).listeners.input ∧
    (dispatch (sliderSetup p) (.input id V)).error = none ∧
    (dispatch (sliderSetup p) (.input id V)).page.label (displayId id) =
      some { textContent := V } ∧
    ∀ id2 ∈ sliders, id2 ≠ id →
      (dispatch (sliderSetup p) (.input id V)).page.label (displayId id2) =
        p.label (displayId id2) := by
  simp only [sliders, List.mem_cons, List.mem_singleton, List.not_mem_nil, or_false] at hid
  rcases hid with rfl | rfl | rfl
  · simp only [displayId_skills] at hl ⊢
    simp [Page.slider, Page.label] at hs hl
    simp [sliderSetup_eq, dispatch, Page.slider, Page.label, Page.setSliderValue, onInput,
      Page.setLabelText, Outcome.ok, hs, hl, sliders, displayId_skills, displayId_exp,
      displayId_edu]
  · simp only [displayId_exp] at hl ⊢
    simp [Page.slider, Page.label] at hs hl
    simp [sliderSetup_eq, dispatch, Page.slider, Page.label, Page.setSliderValue, onInput,
      Page.setLabelText, Outcome.ok, hs, hl, sliders, displayId_skills, displayId_exp,
      displayId_edu]
  · simp only [displayId_edu] at hl ⊢
    simp [Page.slider, Page.label] at hs hl
    simp [sliderSetup_eq, dispatch, Page.slider, Page.label, Page.setSliderValue, onInput,
      Page.setLabelText, Outcome.ok, hs, hl, sliders, displayId_skills, displayId_exp,
      displayId_edu]

theorem setup_keeps_controls (rand : Nat → ℚ) (p : Page) :
    (dragAndDropSetup (particleSetup rand p)).page.weight_skills = p.weight_skills ∧
    (dragAndDropSetup (particleSetup rand p)).page.weight_exp = p.weight_exp ∧
    (dragAndDropSetup (particleSetup rand p)).page.weight_edu = p.weight_edu ∧
    (dragAndDropSetup (particleSetup rand p)).page.val_skills = p.val_skills ∧
    (dragAndDropSetup (particleSetup rand p)).page.val_exp = p.val_exp ∧
    (dragAndDropSetup (particleSetup rand p)).page.val_edu = p.val_edu := by
  unfold dragAndDropSetup particleSetup
  cases p.particlesJs <;> cases p.dropZone <;> cases p.resumeInput <;>
    exact ⟨rfl, rfl, rfl, rfl, rfl, rfl⟩

theorem formSetup_keeps (p : Page) :
    (formSetup p).weight_skills = p.weight_skills ∧
    (formSetup p).weight_exp = p.weight_exp ∧
    (formSetup p).weight_edu = p.weight_edu ∧
    (formSetup p).val_skills = p.val_skills ∧
    (formSetup p).val_exp = p.val_exp ∧
    (formSetup p).val_edu = p.val_edu ∧
    (formSetup p).listeners.input = p.listeners.input := by
  unfold formSetup
  cases p.uploadForm <;> exact ⟨rfl, rfl, rfl, rfl, rfl, rfl, rfl⟩

theorem input_mirrors_when_attached (q : Page) (id V : String) (s : Slider) (l : Label)
    (hid : id ∈ sliders) (hs : q.slider id = some s) (hl : q.label (displayId id) = some l)
    (hreg : id ∈ q.listeners.input) :
    (dispatch q (.input id V)).error = none ∧
    (dispatch q (.input id V)).page.label (displayId id) = some { textContent := V } ∧
    ∀ id2 ∈ sliders, id2 ≠ id →
      (dispatch q (.input id V)).page.label (displayId id2) = q.label (displayId id2) := by
  simp only [sliders, List.mem_cons, List.mem_singleton, List.not_mem_nil, or_false] at hid
  rcases hid with rfl | rfl | rfl
  · simp only [displayId_skills] at hl ⊢
    simp [Page.slider, Page.label] at hs hl
    simp [dispatch, Page.slider, Page.label, Page.setSliderValue, onInput,
      Page.setLabelText, Outcome.ok, hs, hl, hreg, sliders, displayId_skills, displayId_exp,
      displayId_edu]
  · simp only [displayId_exp] at hl ⊢
    simp [Page.slider, Page.label] at hs hl
    simp [dispatch, Page.slider, Page.label, Page.setSliderValue, onInput,
      Page.setLabelText, Outcome.ok, hs, hl, hreg, sliders, displayId_skills, displayId_exp,
      displayId_edu]
  · simp only [displayId_edu] at hl ⊢
    simp [Page.slider, Page.label] at hs hl
    simp [dispatch, Page.slider, Page.label, Page.setSliderValue, onInput,
      Page.setLabelText, Outcome.ok, hs, hl, hreg, sliders, displayId_skills, displayId_exp,
      displayId_edu]

theorem load_then_input_mirrors (rand : Nat → ℚ) (p : Page) (id V : String) (s : Slider)
    (l : Label) (hload : p.dropZone = none ∨ p.resumeInput.isSome = true)
    (hid : id ∈ sliders) (hs : p.slider id = some s) (hl : p.label (displayId id) = some l) :
    (domContentLoaded rand p).error = none ∧
    (dispatch (domContentLoaded rand p).page (.input id V)).error = none ∧
    (dispatch (domContentLoaded rand p).page (.input id V)).page.label (displayId id) =
      some { textContent := V } ∧
    ∀ id2 ∈ sliders, id2 ≠ id →
      (dispatch (domContentLoaded rand p).page (.input id V)).page.label (displayId id2) =
        p.label (displayId id2) := by
  obtain ⟨herr, hinput⟩ := load_reaches_sliders rand p hload
  have hpage : (domContentLoaded rand p).page =
      formSetup (sliderSetup (dragAndDropSetup (particleSetup rand p)).page) := by
    have hd : (dragAndDropSetup (particleSetup rand p)).error = none := by
      unfold domContentLoaded at herr
      cases he : (dragAndDropSetup (particleSetup rand p)).error with
      | none => rfl
      | some e => simp [he] at herr
    unfold domContentLoaded
    simp [hd, Outcome.ok]
  obtain ⟨k1, k2, k3, k4, k5, k6⟩ := setup_keeps_controls rand p
  obtain ⟨f1, f2, f3, f4, f5, f6, _⟩ :=
    formSetup_keeps (sliderSetup (dragAndDropSetup (particleSetup rand p)).page)
  have hsl : ∀ i, (domContentLoaded rand p).page.slider i = p.slider i := by
    intro i
    simp only [Page.slider, hpage, f1, f2, f3]
    simp [sliderSetup_eq, k1, k2, k3]
  have hla : ∀ i, (domContentLoaded rand p).page.label i = p.label i := by
    intro i
    simp only [Page.label, hpage, f4, f5, f6]
    simp [sliderSetup_eq, k4, k5, k6]
  have hreg : id ∈ (domContentLoaded rand p).page.listeners.input := by
    rw [hinput]
    have hs0 : (dragAndDropSetup (particleSetup rand p)).page.slider id = some s := by
      simpa [Page.slider, k1, k2, k3] using hs
    have hl0 : (dragAndDropSetup (particleSetup rand p)).page.label (displayId id) = some l := by
      simpa [Page.label, k4, k5, k6] using hl
    exact (sliderSetup_then_input_mirrors _ id V s l hid hs0 hl0).1
  have h := input_mirrors_when_attached (domContentLoaded rand p).page id V s l hid
    (by rw [hsl]; exact hs) (by rw [hla]; exact hl) hreg
  refine ⟨herr, h.1, h.2.1, fun id2 h2 hne => ?_⟩
  rw [h.2.2 id2 h2 hne, hla]

end Lemmas

/-! ## Claims -/

set_option maxRecDepth 8192

/-- C1: a particle that starts inside the canvas is inside the canvas after any
number `n` of calls of `update`, for every velocity and every canvas of
non-negative width and height. -/
theorem particle_stays_inside_canvas (canvas : Canvas) (p : Particle) (n : Nat)
    (hw : 0 ≤ canvas.width) (hh : 0 ≤ canvas.height)
    (hx : 0 ≤ p.x ∧ p.x ≤ canvas.width) (hy : 0 ≤ p.y ∧ p.y ≤ canvas.height) :
    0 ≤ ((Particle.update canvas)^[n] p).x ∧ ((Particle.update canvas)^[n] p).x ≤ canvas.width ∧
    0 ≤ ((Particle.update canvas)^[n] p).y ∧ ((Particle.update canvas)^[n] p).y ≤ canvas.height := by
  cases n with
  | zero => exact ⟨hx.1, hx.2, hy.1, hy.2⟩
  | succ n =>
    rw [Function.iterate_succ_apply']
    have h1 := update_x_inside canvas ((Particle.update canvas)^[n] p) hw
    have h2 := update_y_inside canvas ((Particle.update canvas)^[n] p) hh
    exact ⟨h1.1, h1.2, h2.1, h2.2⟩

/-- Witness of C1: a particle on the right edge of a 10 x 10 canvas, three updates. -/
theorem particle_stays_inside_canvas_witness :
    0 ≤ ((Particle.update ⟨10, 10⟩)^[3] ⟨10, 0, 1, 1 / 2, -1 / 2, 0⟩).x ∧
    ((Particle.update ⟨10, 10⟩)^[3] ⟨10, 0, 1, 1 / 2, -1 / 2, 0⟩).x ≤ (10 : ℚ) ∧
    0 ≤ ((Particle.update ⟨10, 10⟩)^[3] ⟨10, 0, 1, 1 / 2, -1 / 2, 0⟩).y ∧
    ((Particle.update ⟨10, 10⟩)^[3] ⟨10, 0, 1, 1 / 2, -1 / 2, 0⟩).y ≤ (10 : ℚ) :=
  particle_stays_inside_canvas ⟨10, 10⟩ ⟨10, 0, 1, 1 / 2, -1 / 2, 0⟩ 3
    (by norm_num) (by norm_num) (by norm_num) (by norm_num)

/-- C2: for increments in `[0, 5)` the progress width never decreases and stays
in `[0, 95]`: after any ticks the width is in `[0, 95]`, one more tick does not
lower it, and the values written to the bar so far are non-decreasing and in
`[0, 95]`. -/
theorem progress_monotone_and_capped (rs : List ℚ) (r : ℚ)
    (hrs : validIncrements rs) (hr : 0 ≤ r ∧ r < 5) :
    0 ≤ (Timer.run rs Timer.start).width ∧ (Timer.run rs Timer.start).width ≤ 95 ∧
    (Timer.run rs Timer.start).width ≤ ((Timer.run rs Timer.start).tick r).width ∧
    (Timer.run rs Timer.start).written.Pairwise (· ≤ ·) ∧
    ∀ w ∈ (Timer.run rs Timer.start).written, 0 ≤ w ∧ w ≤ 95 := by
  obtain ⟨h0, h95, hs, hb⟩ := run_inv rs hrs
  exact ⟨h0, h95, (tick_width_bounds _ r h95 hr.1).1, hs,
    fun w hw => ⟨(hb w hw).1, le_trans (hb w hw).2 h95⟩⟩

/-- Witness of C2: two ticks of 3 and 4.5 percent, then one of 1 percent. -/
theorem progress_monotone_and_capped_witness :
    0 ≤ (Timer.run [3, 9 / 2] Timer.start).width ∧
    (Timer.run [3, 9 / 2] Timer.start).width ≤ 95 ∧
    (Timer.run [3, 9 / 2] Timer.start).width ≤ ((Timer.run [3, 9 / 2] Timer.start).tick 1).width ∧
    (Timer.run [3, 9 / 2] Timer.start).written.Pairwise (· ≤ ·) ∧
    ∀ w ∈ (Timer.run [3, 9 / 2] Timer.start).written, 0 ≤ w ∧ w ≤ 95 :=
  progress_monotone_and_capped [3, 9 / 2] 1
    (by intro r hr; simp at hr; rcases hr with h | h <;> subst h <;> norm_num)
    (by norm_num)

/-- C7, as stated, fails: on a canvas of width 10 a particle at `x = 0` with
`speedX = -1/2` leaves the range below 0 and `update` puts it at `x = 10`, the
canvas width, not at 0. -/
theorem update_below_zero_not_zero :
    (0 : ℚ) + -1 / 2 < 0 ∧
    (Particle.update ⟨10, 10⟩ ⟨0, 0, 1, -1 / 2, 0, 0⟩).x = 10 ∧
    (Particle.update ⟨10, 10⟩ ⟨0, 0, 1, -1 / 2, 0, 0⟩).x ≠ 0 := by
  norm_num [Particle.update]

/-- C7 amended: after `update`, a coordinate that went above the maximum is 0;
one that went below 0 (and is not above the maximum) is the maximum,
`canvas.width` respectively `canvas.height`; one inside the range is the old
coordinate plus the velocity. -/
theorem update_wraps (canvas : Canvas) (p : Particle) :
    (canvas.width < p.x + p.speedX → (Particle.update canvas p).x = 0) ∧
    (p.x + p.speedX < 0 → p.x + p.speedX ≤ canvas.width →
      (Particle.update canvas p).x = canvas.width) ∧
    (0 ≤ p.x + p.speedX → p.x + p.speedX ≤ canvas.width →
      (Particle.update canvas p).x = p.x + p.speedX) ∧
    (canvas.height < p.y + p.speedY → (Particle.update canvas p).y = 0) ∧
    (p.y + p.speedY < 0 → p.y + p.speedY ≤ canvas.height →
      (Particle.update canvas p).y = canvas.height) ∧
    (0 ≤ p.y + p.speedY → p.y + p.speedY ≤ canvas.height →
      (Particle.update canvas p).y = p.y + p.speedY) := by
  simp only [Particle.update]
  refine ⟨?_, ?_, ?_, ?_, ?_, ?_⟩
  · intro h; simp [h]
  · intro h1 h2; simp [not_lt.mpr h2, h1]
  · intro h1 h2; simp [not_lt.mpr h2, not_lt.mpr h1]
  · intro h; simp [h]
  · intro h1 h2; simp [not_lt.mpr h2, h1]
  · intro h1 h2; simp [not_lt.mpr h2, not_lt.mpr h1]

/-- Witness of C7 amended: on a 10 x 10 canvas, `x` goes from 0 to -1/2 and
wraps to 10; `y` goes from 10 to 21/2 and wraps to 0. -/
theorem update_wraps_witness :
    (Particle.update ⟨10, 10⟩ ⟨0, 10, 1, -1 / 2, 1 / 2, 0⟩).x = 10 ∧
    (Particle.update ⟨10, 10⟩ ⟨0, 10, 1, -1 / 2, 1 / 2, 0⟩).y = 0 :=
  ⟨(update_wraps ⟨10, 10⟩ ⟨0, 10, 1, -1 / 2, 1 / 2, 0⟩).2.1 (by norm_num) (by norm_num),
   (update_wraps ⟨10, 10⟩ ⟨0, 10, 1, -1 / 2, 1 / 2, 0⟩).2.2.2.1 (by norm_num)⟩

/-- C8, as stated, fails: with twenty increments of 4.75 the width is below 95
after 19 ticks and first becomes 95 in the 20th tick, but that tick does not
clear the timer; the 21st tick still runs its body (a 21st write, again 95)
and is the one that clears the timer. -/
theorem timer_not_cleared_when_95_reached :
    (Timer.run (List.replicate 19 (19 / 4)) Timer.start).width < 95 ∧
    (Timer.run (List.replicate 20 (19 / 4)) Timer.start).width = 95 ∧
    (Timer.run (List.replicate 20 (19 / 4)) Timer.start).cleared = false ∧
    (Timer.run (List.replicate 20 (19 / 4)) Timer.start).written.length = 20 ∧
    ((Timer.run (List.replicate 20 (19 / 4)) Timer.start).tick 1).written.length = 21 ∧
    ((Timer.run (List.replicate 20 (19 / 4)) Timer.start).tick 1).written.getLast? = some 95 ∧
    ((Timer.run (List.replicate 20 (19 / 4)) Timer.start).tick 1).cleared = true := by
  norm_num [Timer.run, Timer.tick, Timer.callback, Timer.start, List.replicate]

/-- C8 amended: the timer is cleared at the start of the first tick that
begins with the width already at 95, which is the tick after the one in which
the width first becomes 95. A tick of an uncleared timer always runs its body
(one more write of the new width), also the tick that clears the timer, which
writes 95 again; once the timer is cleared a tick changes nothing. -/
theorem timer_cleared_one_tick_after_95 (rs : List ℚ) (r : ℚ)
    (hrs : validIncrements rs) (hr : 0 ≤ r ∧ r < 5) :
    ((Timer.run rs Timer.start).cleared = true →
      (Timer.run rs Timer.start).tick r = Timer.run rs Timer.start) ∧
    ((Timer.run rs Timer.start).cleared = false →
      (((Timer.run rs Timer.start).tick r).cleared = true ↔
        (Timer.run rs Timer.start).width = 95) ∧
      ((Timer.run rs Timer.start).tick r).written =
        (Timer.run rs Timer.start).written ++ [((Timer.run rs Timer.start).tick r).width] ∧
      ((Timer.run rs Timer.start).width = 95 →
        ((Timer.run rs Timer.start).tick r).width = 95)) := by
  obtain ⟨_, h95, _, _⟩ := run_inv rs hrs
  generalize Timer.run rs Timer.start = t at h95 ⊢
  refine ⟨fun hc => by simp [Timer.tick, hc], fun hc => ⟨?_, ?_, ?_⟩⟩
  · simp only [Timer.tick, Timer.callback, hc, Bool.false_eq_true, if_false]
    constructor
    · intro h
      by_contra hne
      have : ¬ t.width ≥ 95 := fun hge => hne (le_antisymm h95 hge)
      simp [this] at h
    · intro h; simp [h]
  · simp [Timer.tick, Timer.callback, hc]
  · intro h
    have := tick_width_bounds t r h95 hr.1
    exact le_antisymm this.2.1 (by linarith [this.1])

/-- Witness of C8 amended: after twenty increments of 4.75 the timer is not
cleared and the width is 95; the next tick clears it and writes 95. -/
theorem timer_cleared_one_tick_after_95_witness :
    (((Timer.run (List.replicate 20 (19 / 4)) Timer.start).tick 1).cleared = true ↔
      (Timer.run (List.replicate 20 (19 / 4)) Timer.start).width = 95) ∧
    ((Timer.run (List.replicate 20 (19 / 4)) Timer.start).tick 1).written =
      (Timer.run (List.replicate 20 (19 / 4)) Timer.start).written ++
        [((Timer.run (List.replicate 20 (19 / 4)) Timer.start).tick 1).width] ∧
    ((Timer.run (List.replicate 20 (19 / 4)) Timer.start).width = 95 →
      ((Timer.run (List.replicate 20 (19 / 4)) Timer.start).tick 1).width = 95) :=
  (timer_cleared_one_tick_after_95 (List.replicate 20 (19 / 4)) 1
    (by intro r hr; rw [List.eq_of_mem_replicate hr]; norm_num)
    (by norm_num)).2
    (by norm_num [Timer.run, Timer.tick, Timer.callback, Timer.start, List.replicate])

/-- C10: for increments in `[0, 5)` the width after at most 19 ticks is below
95, so none of the first 20 ticks takes the `clearInterval` branch (the timer
is uncleared after each of them); and twenty increments of 4.75 give exactly
95 after the 20th tick. -/
theorem progress_needs_twenty_ticks (rs : List ℚ) (hrs : validIncrements rs) :
    (rs.length ≤ 19 → (Timer.run rs Timer.start).width < 95) ∧
    (rs.length ≤ 20 → (Timer.run rs Timer.start).cleared = false) ∧
    ∃ rs20 : List ℚ, validIncrements rs20 ∧ rs20.length = 20 ∧
      (Timer.run rs20 Timer.start).width = 95 := by
  refine ⟨fun hlen => ?_, run_not_cleared rs hrs, List.replicate 20 (19 / 4), ?_, by simp, ?_⟩
  · rcases Nat.eq_zero_or_pos rs.length with h0 | hpos
    · have : rs = [] := List.length_eq_zero.mp h0
      subst this
      simp [Timer.run, Timer.start]
    · have hne : rs ≠ [] := by
        intro h; subst h; simp at hpos
      have h1 := (run_width_lt rs hrs).2 hne
      have h2 : (rs.length : ℚ) ≤ 19 := by exact_mod_cast hlen
      linarith
  · intro r hr; rw [List.eq_of_mem_replicate hr]; norm_num
  · norm_num [Timer.run, Timer.tick, Timer.callback, Timer.start, List.replicate]

/-- Witness of C10: nineteen increments of 4.75 leave the width below 95 and
the timer uncleared. -/
theorem progress_needs_twenty_ticks_witness :
    (Timer.run (List.replicate 19 (19 / 4)) Timer.start).width < 95 ∧
    (Timer.run (List.replicate 19 (19 / 4)) Timer.start).cleared = false :=
  ⟨(progress_needs_twenty_ticks (List.replicate 19 (19 / 4))
      (by intro r hr; rw [List.eq_of_mem_replicate hr]; norm_num)).1 (by simp),
   (progress_needs_twenty_ticks (List.replicate 19 (19 / 4))
      (by intro r hr; rw [List.eq_of_mem_replicate hr]; norm_num)).2.1 (by simp)⟩

/-- C4 fails on the code: line 97 puts `file.name` unescaped into `innerHTML`.
After a drop of one file named `Q&amp;A.pdf` the staged files are that file and
the list has one row, but the row's text shows `Q&A.pdf`, not the name; a file
named `<b>cv.pdf` is shown as `cv.pdf`. The size is shown rounded to one
decimal before ` KB`, and a name without markup, `cv.pdf`, is shown as it is. -/
theorem dropped_name_with_markup_is_not_shown :
    (onDrop [⟨"Q&amp;A.pdf", 2048⟩] fullPage).error = none ∧
    (onDrop [⟨"Q&amp;A.pdf", 2048⟩] fullPage).page.resumeInput =
      some { files := [⟨"Q&amp;A.pdf", 2048⟩], clicks := 0 } ∧
    (onDrop [⟨"Q&amp;A.pdf", 2048⟩] fullPage).page.fileList =
      some { children := [
        { className := "file-item"
          innerHTML := "\n                <span><i class=\"fas fa-file-alt\"></i> Q&amp;A.pdf</span>\n                <span style=\"font-size: 0.8rem; color: #94a3b8;\">2.0 KB</span>\n            " }] } ∧
    (fileItem ⟨"Q&amp;A.pdf", 2048⟩).text =
      "\n                 Q&A.pdf\n                2.0 KB\n            " ∧
    (fileItem ⟨"<b>cv.pdf", 256⟩).text =
      "\n                 cv.pdf\n                0.3 KB\n            " ∧
    (fileItem ⟨"cv.pdf", 1587⟩).text =
      "\n                 cv.pdf\n                1.5 KB\n            " := by
  refine ⟨by rfl, by rfl, by rfl, by rfl, by rfl, by rfl⟩

/-- C5: a drop with an empty file list changes the page only in the class list
of `dropZone`, from which `dragover` is removed; the staged files and the
visible list stay as they were, and no exception is raised. -/
theorem drop_of_no_files_changes_only_highlight (p : Page) :
    (onDrop [] p).page =
      { p with dropZone := p.dropZone.map (DropZone.removeClass "dragover") } ∧
    (onDrop [] p).error = none ∧
    (onDrop [] p).page.resumeInput = p.resumeInput ∧
    (onDrop [] p).page.fileList = p.fileList ∧
    (dispatch p (.drop [])).page.resumeInput = p.resumeInput ∧
    (dispatch p (.drop [])).page.fileList = p.fileList := by
  refine ⟨by simp [onDrop], by simp [onDrop], by simp [onDrop], by simp [onDrop], ?_, ?_⟩
  · simp only [dispatch]
    split_ifs <;> simp [onDrop, Outcome.ok]
  · simp only [dispatch]
    split_ifs <;> simp [onDrop, Outcome.ok]

/-- C6: when `resumeInput` exists, the submit handler calls `preventDefault`
exactly when no file is staged. With no file staged it raises the alert and
changes nothing else on the page (button, progress bar container and timers
stay as they were). With a file staged, and `analyzeBtn` and
`progressBarContainer` present, it raises no alert and no exception, disables
the button, sets the container's display to `block` and starts one timer. -/
theorem submit_cancels_iff_no_file (p : Page) (fi : FileInput) (hfi : p.resumeInput = some fi) :
    ((onSubmit p).defaultPrevented = true ↔ fi.files.length = 0) ∧
    (fi.files.length = 0 →
      (onSubmit p).page = { p with alerts := p.alerts ++ ["Please upload at least one resume."] } ∧
      (onSubmit p).error = none ∧
      (onSubmit p).page.analyzeBtn = p.analyzeBtn ∧
      (onSubmit p).page.progressBarContainer = p.progressBarContainer ∧
      (onSubmit p).page.timers = p.timers) ∧
    (1 ≤ fi.files.length → ∀ (btn : Button) (c : Container),
      p.analyzeBtn = some btn → p.progressBarContainer = some c →
      (onSubmit p).page.alerts = p.alerts ∧
      (onSubmit p).error = none ∧
      (onSubmit p).page.analyzeBtn.map Button.disabled = some true ∧
      (onSubmit p).page.progressBarContainer = some { display := "block" } ∧
      (onSubmit p).page.timers = p.timers ++ [Timer.start]) := by
  refine ⟨?_, ?_, ?_⟩
  · by_cases h0 : fi.files.length = 0
    · simp [onSubmit, hfi, h0]
    · simp only [onSubmit, hfi, h0, if_false, iff_false]
      cases hb : p.analyzeBtn with
      | none => simp
      | some b =>
        cases hc : p.progressBarContainer with
        | none => simp
        | some c => simp [Outcome.ok]
  · intro h0
    simp [onSubmit, hfi, h0]
  · intro h1 btn c hb hc
    have h0 : fi.files.length ≠ 0 := by omega
    simp [onSubmit, hfi, h0, hb, hc, Outcome.ok]

/-- Witness of C6: the full page has one staged file; submitting disables the
button and shows the container. -/
theorem submit_cancels_iff_no_file_witness :
    (onSubmit fullPage).page.alerts = [] ∧
    (onSubmit fullPage).error = none ∧
    (onSubmit fullPage).page.analyzeBtn.map Button.disabled = some true ∧
    (onSubmit fullPage).page.progressBarContainer = some { display := "block" } ∧
    (onSubmit fullPage).page.timers = [] ++ [Timer.start] :=
  (submit_cancels_iff_no_file fullPage ⟨[⟨"old.pdf", 100⟩], 0⟩ rfl).2.2 (by decide)
    ⟨false, "1", "Analyze"⟩ ⟨"none"⟩ rfl rfl

/-- C9 fails on the code, by the defect of C3: on a page with `dropZone` but
without `resumeInput` the slider `weight_skills` and its label `val_skills`
both exist, yet the load handler throws on line 86 before the slider section
runs, no `input` listener is attached, and an `input` event with value `77`
changes the slider but leaves the label's text at `50`. -/
theorem slider_not_mirrored_after_failed_load :
    pageWithoutFileInput.slider "weight_skills" = some { value := "50" } ∧
    pageWithoutFileInput.label (displayId "weight_skills") = some { textContent := "50" } ∧
    (domContentLoaded (fun _ => 0) pageWithoutFileInput).error =
      some (.typeError "fileInput is null") ∧
    (domContentLoaded (fun _ => 0) pageWithoutFileInput).page.listeners.input = [] ∧
    (dispatch (domContentLoaded (fun _ => 0) pageWithoutFileInput).page
      (.input "weight_skills" "77")).page.slider "weight_skills" = some { value := "77" } ∧
    (dispatch (domContentLoaded (fun _ => 0) pageWithoutFileInput).page
      (.input "weight_skills" "77")).page.label (displayId "weight_skills") =
        some { textContent := "50" } := by
  decide

/-- C3 fails on the code: the drag-and-drop setup checks `dropZone` only. On a
page with `dropZone` but without `resumeInput` the load handler ends with a
`TypeError`, having attached the four `dropZone` listeners but neither the
slider nor the submit listener; a click on `dropZone` then throws as well. A
drop of one file throws when `fileList` is absent, and a submit with a staged
file throws when `analyzeBtn` is absent. -/
theorem missing_elements_raise_type_errors :
    (domContentLoaded (fun _ => 0) pageWithoutFileInput).error =
      some (.typeError "fileInput is null") ∧
    (domContentLoaded (fun _ => 0) pageWithoutFileInput).page.listeners =
      { Listeners.empty with click := true, dragover := true, dragleave := true, drop := true } ∧
    (dispatch (domContentLoaded (fun _ => 0) pageWithoutFileInput).page .click).error =
      some (.typeError "fileInput is null") ∧
    (domContentLoaded (fun _ => 0) pageWithoutFileList).error = none ∧
    (dispatch (domContentLoaded (fun _ => 0) pageWithoutFileList).page
      (.drop [⟨"cv.pdf", 2048⟩])).error = some (.typeError "fileList is null") ∧
    (domContentLoaded (fun _ => 0) pageWithoutAnalyzeBtn).error = none ∧
    (dispatch (domContentLoaded (fun _ => 0) pageWithoutAnalyzeBtn).page .submit).error =
      some (.typeError "analyzeBtn is null") := by
  decide

end SmartResumeRanker
